import Mathlib

/-!
Shallow embedding of `eutils/_internal/queryservice.py` — the rate-limited,
cache-checked NCBI E-utilities query executor — together with theorems
settling the specification's claims about it.

External collaborators (HTTP transport, the lxml markup parser, the SQLite
store, hashlib/pickle) are modelled as explicit inputs or as deterministic
stand-in functions; the executor logic itself (`QueryService._query`,
`_cacheable`, the constructor's throttle setup) is translated line by line.
-/

namespace EUtils

/-- Python substring test `pat in s`, evaluated on the underlying character
lists. -/
def containsSubstr (s pat : String) : Bool :=
  s.toList.tails.any (fun t => pat.toList.isPrefixOf t)

/-- Result of `lxml` `find("ERROR")`: an element has optional text and, for
modelling lxml truthiness (`bool(elem)` = element has children), a child
count flag. -/
structure XmlElem where
  text : Option String
  hasChildren : Bool
deriving DecidableEq, Repr

/-- The facts `_query` extracts from a parsed markup document: the result of
`xml.find("ERROR")` and the boolean value of the XPath query
`//meta/@content='no-cache'`. -/
structure XmlDoc where
  errorNode : Option XmlElem
  metaNoCache : Bool
deriving DecidableEq, Repr

/-- A completed HTTP reply as `requests.post` returns it: `ok`/`status_code`/
`reason`, the `Content-Type` header (absent ⇒ `KeyError`), the value
`r.json()["error"]` would produce (absent ⇒ the JSON access raises), and the
decoded text and raw content of the body. -/
structure Response where
  ok : Bool
  status_code : Nat
  reason : String
  contentType : Option String
  jsonError : Option String
  text : String
  content : String
deriving DecidableEq, Repr

/-- Per-call environment: the transport's reply, the two `time.monotonic()`
readings `_query` takes (one inside the sleep computation, one right after
the post), and the `lxml.etree.fromstring`/`lxml.etree.XML` parser as an
oracle from body text to a document or a parse-exception message. -/
structure Env where
  resp : Response
  nowPre : ℚ
  nowPost : ℚ
  parse : String → Except String XmlDoc

/-- Client state from `QueryService.__init__`: default args, identity fields,
API key, the throttle clock `_last_request_clock` (sentinel `0`), and the
optional cache store mapping cache keys to stored content. -/
structure QueryService where
  default_args : List (String × String)
  email : String
  tool : String
  api_key : Option String
  last_request_clock : ℚ
  cache : Option (List (Nat × String))
deriving Repr

/-- `url_base` constant from the module. -/
def url_base : String := "https://eutils.ncbi.nlm.nih.gov/entrez/eutils"

/-- `self._ident_args = {"tool": tool, "email": email}`. -/
def identArgs (qs : QueryService) : List (String × String) :=
  [("tool", qs.tool), ("email", qs.email)]

/-- `__init__` lines 109–118: 3 requests/second without an API key, 10 with
one; `self.request_interval = 1.0 / requests_per_second`. -/
def requestInterval (api_key : Option String) : ℚ :=
  1 / (if api_key.isSome then 10 else 3)

/-- Python `dict` assignment of one `(key, value)` pair into an
insertion-ordered association list: an existing key keeps its position and
takes the new value, a new key is appended. -/
def pyDictInsert (d : List (String × String)) (kv : String × String) :
    List (String × String) :=
  if d.any (fun p => p.1 == kv.1) then
    d.map (fun p => if p.1 == kv.1 then (p.1, kv.2) else p)
  else d ++ [kv]

/-- Python `dict(pairs)`: build a dict from a pair list left to right, later
pairs overriding earlier values. `dict(list(a.items()) + list(b.items()))`
is `pyDict (a ++ b)`. -/
def pyDict (ps : List (String × String)) : List (String × String) :=
  ps.foldl pyDictInsert []

/-- Python tuple comparison on `(key, value)` string pairs, as used by
`sorted(defining_args.items())`. -/
def pairLe (a b : String × String) : Prop :=
  a.1 < b.1 ∨ (a.1 = b.1 ∧ a.2 ≤ b.2)

instance : DecidableRel pairLe := fun _ _ =>
  inferInstanceAs (Decidable (_ ∨ _))

instance : IsTotal (String × String) pairLe where
  total a b := by
    rcases lt_trichotomy a.1 b.1 with h | h | h
    · exact Or.inl (Or.inl h)
    · rcases le_total a.2 b.2 with h2 | h2
      · exact Or.inl (Or.inr ⟨h, h2⟩)
      · exact Or.inr (Or.inr ⟨h.symm, h2⟩)
    · exact Or.inr (Or.inl h)

instance : IsTrans (String × String) pairLe where
  trans a b c hab hbc := by
    rcases hab with h1 | ⟨e1, l1⟩
    · rcases hbc with h2 | ⟨e2, _⟩
      · exact Or.inl (h1.trans h2)
      · exact Or.inl (e2 ▸ h1)
    · rcases hbc with h2 | ⟨e2, l2⟩
      · exact Or.inl (e1 ▸ h2)
      · exact Or.inr ⟨e1.trans e2, l1.trans l2⟩

instance : IsAntisymm (String × String) pairLe where
  antisymm a b hab hba := by
    rcases hab with h1 | ⟨e1, l1⟩
    · rcases hba with h2 | ⟨e2, _⟩
      · exact absurd h2 (not_lt_of_gt h1)
      · exact absurd h1 (e2 ▸ lt_irrefl _)
    · rcases hba with h2 | ⟨_, l2⟩
      · exact absurd h2 (e1 ▸ lt_irrefl _)
      · exact Prod.ext e1 (le_antisymm l1 l2)

/-- `sorted(d.items())`: sort the pair list by Python tuple order. -/
def sortedItems (d : List (String × String)) : List (String × String) :=
  List.insertionSort pairLe d

/-- Models `pickle.dumps((url, sorted_items))`: a deterministic serialization
of the url together with the sorted defining-args pairs. -/
def pickleDumps (url : String) (items : List (String × String)) : String :=
  url ++ "|" ++ String.intercalate ";" (items.map (fun kv => kv.1 ++ "=" ++ kv.2))

/-- Models `hashlib.md5(...).hexdigest()`: a deterministic digest of the
serialized bytes, here a polynomial hash reduced `% 2^128` (the width of an
MD5 digest). -/
def md5hex (s : String) : Nat :=
  s.toList.foldl (fun h c => (h * 131 + c.toNat) % (2 ^ 128)) 7

/-- Line 267: `cache_key = hashlib.md5(pickle.dumps((url,
sorted(defining_args.items())))).hexdigest()`. -/
def cacheKey (url : String) (defining_args : List (String × String)) : Nat :=
  md5hex (pickleDumps url (sortedItems defining_args))

/-- Store lookup `self._cache[cache_key]` (`none` is the `KeyError` miss). -/
def storeGet (st : List (Nat × String)) (k : Nat) : Option String :=
  (st.find? (fun p => p.1 == k)).map (fun p => p.2)

/-- Store write `self._cache[cache_key] = r.content`. -/
def storePut (st : List (Nat × String)) (k : Nat) (v : String) :
    List (Nat × String) :=
  if st.any (fun p => p.1 == k) then
    st.map (fun p => if p.1 == k then (k, v) else p)
  else st ++ [(k, v)]

/-- Lines 273–286: `if not skip_cache and self._cache: try: v =
self._cache[cache_key] ... except KeyError: pass`. -/
def cacheLookup (skip_cache : Bool) (cache : Option (List (Nat × String)))
    (ck : Nat) : Option String :=
  if skip_cache then none
  else match cache with
    | none => none
    | some st => storeGet st ck

/-- How a `_query` call terminates. `ok` is a normal return of the body
content; `errRequest` is a surfaced `EutilsRequestError`, `errNCBI` a
surfaced `EutilsNCBIError` (both subclasses of `Exception`, as every
raisable non-system Python error is, so a blanket `except Exception`
catches either); `unhandled` is any other exception escaping `_query`
(`KeyError`, a JSON decode error, an `lxml` parse error). -/
inductive QueryResult where
  | ok (content : String)
  | errRequest (msg : String)
  | errNCBI (msg : String)
  | unhandled (msg : String)
deriving DecidableEq, Repr

/-- Python `str` of the optional `.text` of an lxml element, as `format`
renders it. -/
def pyStrOpt : Option String → String
  | some s => s
  | none => "None"

/-- The exception message produced inside the `try` of lines 313–317
(failing status, non-JSON content type). Every path through that `try`
raises — either the parser raises, or the deliberate
`raise EutilsRequestError(...)` fires — and the enclosing
`except Exception` catches whichever it is. Note the lxml truthiness:
`errornode.text if errornode else "Unknown Error"` consults
`bool(errornode)`, which for a found element is "has children". -/
def failParseMsg (parse : String → Except String XmlDoc) (r : Response) :
    String :=
  match parse r.text with
  | .error ex => ex
  | .ok xml =>
    let errormsg := match xml.errorNode with
      | some el => if el.hasChildren then pyStrOpt el.text else "Unknown Error"
      | none => "Unknown Error"
    r.reason ++ " (" ++ toString r.status_code ++ "): " ++ errormsg

/-- The exception message produced inside the `try` of lines 323–325
(embedded error marker despite success status): either the parser raises,
or `xml.find("ERROR")` is `None` and `.text` raises `AttributeError`, or
the deliberate `raise EutilsRequestError(...)` fires; the enclosing
`except Exception` catches all three. -/
def embeddedErrMsg (parse : String → Except String XmlDoc) (r : Response) :
    String :=
  match parse r.text with
  | .error ex => ex
  | .ok xml =>
    match xml.errorNode with
    | none => "AttributeError: NoneType object has no attribute text"
    | some el =>
      r.reason ++ " (" ++ toString r.status_code ++ "): " ++ pyStrOpt el.text

/-- The body marker checked at line 329. -/
def accessDeniedMarker : String := "<h1 class=\"error\">Access Denied</h1>"

/-- Lines 251–255, the nested `_cacheable(r)`:
`not ("no-cache" in r and lxml.etree.XML(r).xpath("//meta/@content='no-cache'"))`.
The substring probe short-circuits the parse; when the probe hits and the
parse raises, the exception propagates (there is no `try` here). -/
def cacheableCheck (parse : String → Except String XmlDoc) (r : String) :
    Except String Bool :=
  if containsSubstr r "no-cache" then
    match parse r with
    | .error ex => .error ex
    | .ok xml => .ok (!xml.metaNoCache)
  else .ok true

/-- Outcome of the classification/store section of `_query`
(lines 308–340), given the reply and the cache contents at entry. -/
structure ClassifyOut where
  result : QueryResult
  putPerformed : Bool
  cacheAfter : Option (List (Nat × String))
deriving Repr

/-- Lines 308–340 of `_query`: reply classification followed by the
conditional store write and the final return of `r.content`. `url2` is the
request URL after the API key was appended (line 289). -/
def classifyStore (parse : String → Except String XmlDoc)
    (cache : Option (List (Nat × String))) (ck : Nat) (url2 : String)
    (r : Response) : ClassifyOut :=
  if !r.ok then
    match r.contentType with
    | none => ⟨.unhandled "KeyError: Content-Type", false, cache⟩
    | some ct =>
      if ct = "application/json" then
        match r.jsonError with
        | some e =>
          ⟨.errRequest (r.reason ++ " (" ++ toString r.status_code ++ "): " ++ e),
            false, cache⟩
        | none => ⟨.unhandled "ValueError: invalid JSON body", false, cache⟩
      else
        ⟨.errNCBI ("Error parsing response object from NCBI: " ++
          failParseMsg parse r), false, cache⟩
  else if containsSubstr r.text "<error>" || containsSubstr r.text "<ERROR>" then
    ⟨.errNCBI ("Error parsing response object from NCBI: " ++
      embeddedErrMsg parse r), false, cache⟩
  else if containsSubstr r.text accessDeniedMarker then
    ⟨.errRequest ("Access Denied: " ++ url2), false, cache⟩
  else
    match cache with
    | none => ⟨.ok r.content, false, none⟩
    | some st =>
      match cacheableCheck parse r.text with
      | .error ex => ⟨.unhandled ex, false, some st⟩
      | .ok true => ⟨.ok r.content, true, some (storePut st ck r.content)⟩
      | .ok false => ⟨.ok r.content, false, some st⟩

/-- Observable outcome of one `_query` call: the result, whether
`requests.post` was invoked and with which form data, the sleep performed
by the throttle (if any), whether `self._last_request_clock` was assigned,
whether a store write happened, and the client state afterwards. -/
structure QueryTrace where
  result : QueryResult
  transportCalled : Bool
  sentForm : Option (List (String × String))
  slept : Option ℚ
  clockWritten : Bool
  putPerformed : Bool
  final : QueryService

/-- The defining-args merge and cache key of lines 262–267, factored out:
`defining_args = dict(list(self.default_args.items()) + list(args.items()))`,
`cache_key = md5(pickle.dumps((url, sorted(defining_args.items()))))` with
`url = url_base + path` (the API key is appended only later, line 289). -/
def queryCacheKey (qs : QueryService) (path : String)
    (args : List (String × String)) : Nat :=
  cacheKey (url_base ++ path) (pyDict (qs.default_args ++ args))

/-- Lines 288–289: the URL actually requested, after
`url += "?api_key=..."` when an API key is present. -/
def requestUrl (qs : QueryService) (path : String) : String :=
  match qs.api_key with
  | some k => url_base ++ path ++ "?api_key=" ++ k
  | none => url_base ++ path

/-- `QueryService._query(path, args, skip_cache, skip_sleep)`, lines
236–340, as a function of the client state and the per-call environment. -/
def query (qs : QueryService) (path : String) (args : List (String × String))
    (skip_cache skip_sleep : Bool) (env : Env) : QueryTrace :=
  let url := url_base ++ path
  let defining_args := pyDict (qs.default_args ++ args)
  let full_args := pyDict (identArgs qs ++ defining_args)
  let ck := cacheKey url defining_args
  match cacheLookup skip_cache qs.cache ck with
  | some v => ⟨.ok v, false, none, none, false, false, qs⟩
  | none =>
    let url2 := requestUrl qs path
    let slept : Option ℚ :=
      if skip_sleep then none
      else
        let sleep_time := requestInterval qs.api_key -
          (env.nowPre - qs.last_request_clock)
        if 0 < sleep_time then some sleep_time else none
    let out := classifyStore env.parse qs.cache ck url2 env.resp
    ⟨out.result, true, some full_args, slept, true, out.putPerformed,
      { qs with last_request_clock := env.nowPost, cache := out.cacheAfter }⟩

/-! ### Concrete fixtures used by the counterexample and witness theorems -/

/-- A cacheless client with no API key and the sentinel throttle clock. -/
def qsBase : QueryService :=
  ⟨[("retmode", "xml")], "biocommons-dev@googlegroups.com", "eutils", none, 0, none⟩

/-- A client like `qsBase` but with an empty store configured. -/
def qsStoreEmpty : QueryService :=
  ⟨[("retmode", "xml")], "biocommons-dev@googlegroups.com", "eutils", none, 0, some []⟩

/-- The cache key a `qsBase`-configured client computes for
`("/efetch.fcgi", {db: gene})`. -/
def wKey : Nat := queryCacheKey qsBase "/efetch.fcgi" [("db", "gene")]

/-- A client like `qsBase` whose store already holds `wKey`. -/
def qsWitStore : QueryService :=
  ⟨[("retmode", "xml")], "biocommons-dev@googlegroups.com", "eutils", none, 0,
    some [(wKey, "stored payload")]⟩

/-- A parser oracle returning a document whose `ERROR` element holds the text
`bad database` and no children (as `<Result><ERROR>bad database</ERROR></Result>`
parses). -/
def parseBadDb : String → Except String XmlDoc := fun _ =>
  .ok ⟨some ⟨some "bad database", false⟩, false⟩

/-- Reply for C1: failing status, non-JSON content type, markup body with an
`ERROR` element. -/
def envFailXml : Env :=
  ⟨⟨false, 400, "Bad Request", some "text/xml", none,
    "<Result><ERROR>bad database</ERROR></Result>",
    "<Result><ERROR>bad database</ERROR></Result>"⟩, 5, 6, parseBadDb⟩

/-- A parser oracle for a body whose `ERROR` element holds `Invalid db name`. -/
def parseInvalidDb : String → Except String XmlDoc := fun _ =>
  .ok ⟨some ⟨some "Invalid db name", false⟩, false⟩

/-- Reply for C2: success status but an embedded `<ERROR>` marker in the body. -/
def envEmbeddedErr : Env :=
  ⟨⟨true, 200, "OK", some "text/xml", none,
    "<Result><ERROR>Invalid db name</ERROR></Result>",
    "<Result><ERROR>Invalid db name</ERROR></Result>"⟩, 5, 6, parseInvalidDb⟩

/-- Reply for C8: success status, no error markers, Access Denied page. -/
def envAccessDenied : Env :=
  ⟨⟨true, 200, "OK", some "text/html", none,
    "<html><h1 class=\"error\">Access Denied</h1></html>",
    "<html><h1 class=\"error\">Access Denied</h1></html>"⟩, 5, 6,
    fun _ => .error "unused"⟩

/-- Reply for C10: success status, body holding the `no-cache` token but not
well-formed markup, so the parse oracle raises. -/
def envNoCacheMalformed : Env :=
  ⟨⟨true, 200, "OK", some "text/html", none,
    "a plain no-cache page", "a plain no-cache page"⟩, 5, 6,
    fun _ => .error "XMLSyntaxError: not well-formed"⟩

/-- A benign successful reply whose body carries none of the markers. -/
def envPlainOk : Env :=
  ⟨⟨true, 200, "OK", some "text/xml", none,
    "<eSearchResult><Count>1</Count></eSearchResult>",
    "<eSearchResult><Count>1</Count></eSearchResult>"⟩, 5, 6,
    fun _ => .ok ⟨none, false⟩⟩

/-- `envPlainOk` with both `time.monotonic()` readings at `0`, as for a call
issued immediately at the monotonic clock's origin. -/
def envPlainOkAtZero : Env :=
  ⟨envPlainOk.resp, 0, 0, envPlainOk.parse⟩

/-- Spec-side success/cacheability predicate used to state C7: a store write
requires the classified-success result and a body whose cacheability check
comes back `true` without raising. -/
def cacheableOk (parse : String → Except String XmlDoc) (text : String) : Prop :=
  cacheableCheck parse text = .ok true

/-! ### Theorems settling the claims -/

/-- A one-entry store always hits on its own key. -/
theorem storeGet_single (k : Nat) (v : String) : storeGet [(k, v)] k = some v := by
  simp [storeGet]

/-- C1. The claim says a failing-status, non-JSON reply whose markup body
holds `<ERROR>bad database</ERROR>` fails with kind RequestRejected carrying
`bad database`. The code instead surfaces `EutilsNCBIError` with message
`Error parsing response object from NCBI: Bad Request (400): Unknown Error`:
the deliberate `raise EutilsRequestError` sits inside the `try` whose blanket
`except Exception` re-wraps it, and lxml element truthiness (a childless
`ERROR` node is falsy) discards the error text. This theorem evaluates the
embedded code at that failing input. -/
theorem failing_status_error_is_wrapped :
    (query qsBase "/efetch.fcgi" [("db", "bogus")] false true envFailXml).result =
      .errNCBI "Error parsing response object from NCBI: Bad Request (400): Unknown Error" :=
  rfl

/-- C2. The claim says a success-status reply with an embedded `<ERROR>`
marker fails with kind RequestRejected carrying the ERROR element's text.
The code does fail (not success), but the `raise EutilsRequestError` inside
the `try` is caught by `except Exception` and re-raised as `EutilsNCBIError`
wrapping the message, so the surfaced kind is never RequestRejected. This
theorem evaluates the embedded code at such an input. -/
theorem embedded_error_is_wrapped :
    (query qsBase "/esearch.fcgi" [] false true envEmbeddedErr).result =
      .errNCBI "Error parsing response object from NCBI: OK (200): Invalid db name" :=
  rfl

/-- C3 counterexample. A network call made with `skip_sleep = true` still
assigns `self._last_request_clock` (line 301 runs unconditionally after the
post), refuting "never mutated on a call made with skipThrottle=true". -/
theorem clock_mutated_despite_skip_throttle :
    (query qsBase "/efetch.fcgi" [] false true envPlainOk).transportCalled = true ∧
    (query qsBase "/efetch.fcgi" [] false true envPlainOk).clockWritten = true ∧
    (query qsBase "/efetch.fcgi" [] false true envPlainOk).final.last_request_clock = 6 ∧
    qsBase.last_request_clock = 0 :=
  ⟨rfl, rfl, rfl, rfl⟩

/-- C3 amended: the throttle clock is written exactly when the transport was
invoked — regardless of `skip_sleep` — and its new value is the
post-completion reading, while a cache hit leaves it untouched. -/
theorem clockWritten_iff_transportCalled (qs : QueryService) (path : String)
    (args : List (String × String)) (sc ss : Bool) (env : Env) :
    ((query qs path args sc ss env).clockWritten =
      (query qs path args sc ss env).transportCalled) ∧
    ((query qs path args sc ss env).final.last_request_clock =
      if (query qs path args sc ss env).transportCalled then env.nowPost
      else qs.last_request_clock) := by
  simp only [query]
  split <;> simp

/-- C9 counterexample. At the sentinel `_last_request_clock = 0`, a first
call seen at monotonic reading `0` computes `sleep_time = 1/3 > 0` and
sleeps, refuting "the computed sleep time is not positive for every possible
current monotonic clock reading". -/
theorem first_call_sleeps_at_small_clock :
    (query qsBase "/einfo.fcgi" [] true false envPlainOkAtZero).slept =
      some (1 / 3) := by
  simp [query, cacheLookup, requestInterval, qsBase, envPlainOkAtZero, envPlainOk]

/-- C9 amended: at the sentinel clock, the computed sleep time
`interval − (now − 0)` is not positive — so the first call never waits —
provided the current monotonic reading is at least the request interval. -/
theorem first_call_no_wait_of_clock_ge (qs : QueryService) (path : String)
    (args : List (String × String)) (env : Env)
    (h0 : qs.last_request_clock = 0)
    (hnow : requestInterval qs.api_key ≤ env.nowPre) :
    (query qs path args true false env).slept = none := by
  simp only [query, cacheLookup, if_pos]
  have : ¬ 0 < requestInterval qs.api_key - (env.nowPre - qs.last_request_clock) := by
    rw [h0]
    linarith
  simp [this]

/-- C9 amended, witness: a first call whose monotonic reading is `1`
(≥ the keyless interval 1/3) does not sleep. -/
theorem first_call_no_wait_witness :
    (query qsBase "/einfo.fcgi" [] true false envPlainOk).slept = none :=
  first_call_no_wait_of_clock_ge qsBase "/einfo.fcgi" [] envPlainOk rfl
    (by norm_num [requestInterval, qsBase, envPlainOk])

/-- C10. A reply that classifies as success, whose body holds the literal
`no-cache` token but is not well-formed markup, on a client with a store:
`_cacheable`'s parse raises outside any `try`, so the exception escapes and
the success payload is not returned; nothing is written to the store. -/
theorem nocache_parse_failure_escapes :
    (query qsStoreEmpty "/efetch.fcgi" [] false true envNoCacheMalformed).result =
      .unhandled "XMLSyntaxError: not well-formed" ∧
    (query qsStoreEmpty "/efetch.fcgi" [] false true envNoCacheMalformed).putPerformed =
      false :=
  ⟨rfl, rfl⟩

/-- C4. Sorting the defining-args pairs before serialization makes the cache
key insertion-order independent: any two pair lists with the same content
(permutations of each other) encode to the same key; the encoder is a pure
function, so repeated calls agree trivially. -/
theorem cacheKey_perm_invariant (url : String) (m1 m2 : List (String × String))
    (h : m1.Perm m2) : cacheKey url m1 = cacheKey url m2 := by
  have hs : sortedItems m1 = sortedItems m2 :=
    List.eq_of_perm_of_sorted
      ((List.perm_insertionSort pairLe m1).trans
        (h.trans (List.perm_insertionSort pairLe m2).symm))
      (List.sorted_insertionSort pairLe m1)
      (List.sorted_insertionSort pairLe m2)
  unfold cacheKey
  rw [hs]

/-- C4 witness: two insertion orders of the same two defining args encode to
the same key. -/
theorem cacheKey_perm_invariant_witness :
    cacheKey (url_base ++ "/esearch.fcgi") [("db", "gene"), ("term", "VEGF")] =
    cacheKey (url_base ++ "/esearch.fcgi") [("term", "VEGF"), ("db", "gene")] :=
  cacheKey_perm_invariant _ _ _ (List.Perm.swap _ _ _)

/-- C5. The cache key is computed from the endpoint URL (before the API key
is appended) and the merge of default args with per-call args only: two
clients differing only in tool, email, or API key yield the same key for the
same endpoint and args. -/
theorem cacheKey_ignores_identity (d : List (String × String))
    (e1 t1 e2 t2 : String) (k1 k2 : Option String) (lc : ℚ)
    (c : Option (List (Nat × String))) (path : String)
    (args : List (String × String)) :
    queryCacheKey ⟨d, e1, t1, k1, lc, c⟩ path args =
    queryCacheKey ⟨d, e2, t2, k2, lc, c⟩ path args := rfl

/-- C6. With `skip_cache = false`, a store configured, and the computed
cache key present in it, `_query` returns the stored payload immediately:
no transport call, no form sent, no sleep, no clock write, no store write,
and the client state is unchanged. -/
theorem cache_hit_short_circuit (qs : QueryService) (path : String)
    (args : List (String × String)) (ss : Bool) (env : Env)
    (st : List (Nat × String)) (v : String)
    (hc : qs.cache = some st)
    (hv : storeGet st (queryCacheKey qs path args) = some v) :
    query qs path args false ss env =
      ⟨.ok v, false, none, none, false, false, qs⟩ := by
  have hck : cacheLookup false qs.cache
      (cacheKey (url_base ++ path) (pyDict (qs.default_args ++ args))) = some v := by
    simp only [cacheLookup, hc, Bool.false_eq_true, if_false]
    simpa [queryCacheKey] using hv
  simp only [query, hck]

/-- C6 witness: a client whose store holds the key for
`("/efetch.fcgi", {db: gene})` returns the stored payload untouched. -/
theorem cache_hit_short_circuit_witness :
    query qsWitStore "/efetch.fcgi" [("db", "gene")] false false envPlainOk =
      ⟨.ok "stored payload", false, none, none, false, false, qsWitStore⟩ :=
  cache_hit_short_circuit qsWitStore "/efetch.fcgi" [("db", "gene")] false envPlainOk
    [(wKey, "stored payload")] "stored payload" rfl
    (storeGet_single wKey "stored payload")

/-- The store-write discipline of lines 308–340 in isolation: a put happens
exactly when a store is present, the classification returned the body as a
normal success, and the cacheability check passed; and whenever no put
happens the cache is left unchanged. -/
theorem classifyStore_put_spec (parse : String → Except String XmlDoc)
    (cache : Option (List (Nat × String))) (ck : Nat) (url2 : String)
    (r : Response) :
    (((classifyStore parse cache ck url2 r).putPerformed = true) ↔
      (cache.isSome = true ∧
       (classifyStore parse cache ck url2 r).result = .ok r.content ∧
       cacheableOk parse r.text)) ∧
    ((classifyStore parse cache ck url2 r).putPerformed = false →
      (classifyStore parse cache ck url2 r).cacheAfter = cache) := by
  unfold classifyStore cacheableOk
  (repeat' split) <;> simp_all

/-- C7. `Store.put` is performed iff the transport was actually invoked, a
store is configured, the result is the fresh success payload, and the body
passed the cacheability check — a condition independent of `skip_cache`
(which only gates the read) — and any call that performs no put leaves the
cache exactly as it was, so no failed outcome is ever written. -/
theorem store_put_iff_success_cacheable (qs : QueryService) (path : String)
    (args : List (String × String)) (sc ss : Bool) (env : Env) :
    (((query qs path args sc ss env).putPerformed = true) ↔
      ((query qs path args sc ss env).transportCalled = true ∧
       qs.cache.isSome = true ∧
       (query qs path args sc ss env).result = .ok env.resp.content ∧
       cacheableOk env.parse env.resp.text)) ∧
    ((query qs path args sc ss env).putPerformed = false →
      (query qs path args sc ss env).final.cache = qs.cache) := by
  simp only [query]
  split
  · simp
  · have h := classifyStore_put_spec env.parse qs.cache
      (cacheKey (url_base ++ path) (pyDict (qs.default_args ++ args)))
      (requestUrl qs path) env.resp
    exact ⟨by simpa using h.1, h.2⟩

/-- C7 witness: a cacheable success fetched with `skip_cache = true` on a
client with an (empty) store performs the store write. -/
theorem store_put_witness :
    (query qsStoreEmpty "/esearch.fcgi" [] true true envPlainOk).putPerformed =
      true :=
  (store_put_iff_success_cacheable qsStoreEmpty "/esearch.fcgi" [] true true
    envPlainOk).1.mpr ⟨rfl, rfl, rfl, rfl⟩

/-- C8 counterexample. The Access Denied page makes `_query` raise
`EutilsRequestError` — the very same exception class as a rejected query —
so no distinct AccessDenied kind exists in the code; the claim's "distinct
error kind AccessDenied (not RequestRejected)" fails at this input (the
message does carry the requested URL). -/
theorem access_denied_same_kind_as_rejected :
    (query qsBase "/efetch.fcgi" [] false true envAccessDenied).result =
      .errRequest ("Access Denied: " ++ url_base ++ "/efetch.fcgi") := rfl

/-- C8 amended: a success-status reply without embedded error markers whose
body holds the Access Denied marker fails with kind RequestRejected
(`EutilsRequestError`), the message carrying the requested URL (API key
included when present). -/
theorem access_denied_request_rejected (qs : QueryService) (path : String)
    (args : List (String × String)) (ss : Bool) (env : Env)
    (hok : env.resp.ok = true)
    (h1 : containsSubstr env.resp.text "<error>" = false)
    (h2 : containsSubstr env.resp.text "<ERROR>" = false)
    (h3 : containsSubstr env.resp.text accessDeniedMarker = true) :
    (query qs path args true ss env).result =
      .errRequest ("Access Denied: " ++ requestUrl qs path) := by
  simp [query, cacheLookup, classifyStore, hok, h1, h2, h3]

/-- C8 amended, witness: the Access Denied page on a concrete keyless call. -/
theorem access_denied_request_rejected_witness :
    (query qsBase "/efetch.fcgi" [] true true envAccessDenied).result =
      .errRequest ("Access Denied: " ++ requestUrl qsBase "/efetch.fcgi") :=
  access_denied_request_rejected qsBase "/efetch.fcgi" [] true envAccessDenied
    rfl rfl rfl rfl

end EUtils
